import Mathlib

/-!
Verification of the state-update and HTIF/CLINT device semantics of the
Cartesi machine-emulator fragment (machine-state.h, htif.cpp, rtc.h, clint.h).

The C++ code is shallowly embedded: 64-bit registers become `Nat` (callers
guarantee values below `2 ^ 64`, stated as hypotheses where relevant), the
relevant subset of `machine_state` becomes the structure `MachineState`, the
`htif` device object becomes `HtifState`, and the host console is made
explicit (stdout as a byte list inside `MachineState`, stdin availability as
an `Option (List Nat)` argument to the polling code).
-/

namespace Cartesi

/-- The unpacked iflags sub-structure of `machine_state` (machine-state.h):
privilege level `PRV`, idle flag `I`, halted flag `H`. -/
structure Iflags where
  PRV : Nat
  I : Bool
  H : Bool
deriving DecidableEq, Repr

/-- The subset of `machine_state` (machine-state.h) that the verified
operations read or write: `mcycle`, the interrupt CSRs `mie`/`mip`, the
unpacked `iflags`, the CLINT shadow state (`mtimecmp` only — there is no
stored `mtime`), the HTIF shadow state (`tohost`, `fromhost`), and the
break flag `brk`.  The extra field `stdout` models the bytes the HTIF
putchar path emits on the host standard output. -/
structure MachineState where
  mcycle : Nat
  mie : Nat
  mip : Nat
  iflags : Iflags
  mtimecmp : Nat
  tohost : Nat
  fromhost : Nat
  brk : Bool
  stdout : List Nat
deriving DecidableEq, Repr

/-- `machine_state::set_brk_from_mip_mie` (machine-state.h): `brk = mip & mie;`
(C++ converts the nonzero test to bool). -/
def set_brk_from_mip_mie (s : MachineState) : MachineState :=
  { s with brk := s.mip &&& s.mie != 0 }

/-- `machine_state::set_brk_from_iflags_H` (machine-state.h): `brk = iflags.H;`. -/
def set_brk_from_iflags_H (s : MachineState) : MachineState :=
  { s with brk := s.iflags.H }

/-- `machine_state::packed_iflags` (machine-state.h), parametrized by the
field shifts `IFLAGS_PRV_SHIFT`, `IFLAGS_I_SHIFT`, `IFLAGS_H_SHIFT`, which
are defined in riscv-constants.h and are not part of this fragment. -/
def packed_iflags (prvShift iShift hShift : Nat) (PRV I H : Nat) : Nat :=
  (PRV <<< prvShift) ||| (I <<< iShift) ||| (H <<< hShift)

/-- `machine_state::read_iflags` (machine-state.h). -/
def read_iflags (prvShift iShift hShift : Nat) (f : Iflags) : Nat :=
  packed_iflags prvShift iShift hShift f.PRV f.I.toNat f.H.toNat

/-- `machine_state::write_iflags` (machine-state.h):
`H = (val >> IFLAGS_H_SHIFT) & 1; I = (val >> IFLAGS_I_SHIFT) & 1;
PRV = (val >> IFLAGS_PRV_SHIFT) & 3;`. -/
def write_iflags (prvShift iShift hShift : Nat) (v : Nat) : Iflags :=
  { H := (v >>> hShift) &&& 1 == 1
    I := (v >>> iShift) &&& 1 == 1
    PRV := (v >>> prvShift) &&& 3 }

/-! ### RTC (rtc.h) -/

/-- `RTC_FREQ_DIV` (rtc.h): clock divisor. -/
def RTC_FREQ_DIV : Nat := 100

/-- `rtc_cycle_to_time` (rtc.h): `cycle / RTC_FREQ_DIV`. -/
def rtc_cycle_to_time (cycle : Nat) : Nat := cycle / RTC_FREQ_DIV

/-- `rtc_time_to_cycle` (rtc.h): `time * RTC_FREQ_DIV`. -/
def rtc_time_to_cycle (time : Nat) : Nat := time * RTC_FREQ_DIV

/-- Modelled from the spec: CLINT reads of `mtime` return
`rtc_cycle_to_time(mcycle)` — a synthesized view, not a stored counter
(clint.cpp is not part of the fragment; clint.h fixes the relative address
and the spec, section 4.2, fixes the semantics). -/
def read_clint_mtime (s : MachineState) : Nat := rtc_cycle_to_time s.mcycle

/-! ### HTIF device (htif.cpp)

The machine-side accessors used through `i_virtual_state_access`. -/

/-- Machine accessor: read the HTIF `tohost` CSR. -/
def read_htif_tohost (s : MachineState) : Nat := s.tohost

/-- Machine accessor: read the HTIF `fromhost` CSR. -/
def read_htif_fromhost (s : MachineState) : Nat := s.fromhost

/-- Machine accessor: write the HTIF `tohost` CSR. -/
def write_htif_tohost (s : MachineState) (v : Nat) : MachineState :=
  { s with tohost := v }

/-- Machine accessor: write the HTIF `fromhost` CSR. -/
def write_htif_fromhost (s : MachineState) (v : Nat) : MachineState :=
  { s with fromhost := v }

/-- Machine accessor: set the `iflags.H` flag. -/
def set_iflags_H (s : MachineState) : MachineState :=
  { s with iflags := { s.iflags with H := true } }

/-- Modelled from the spec: relative address of the HTIF `tohost` CSR
(`htif::csr::tohost` in htif.h, not part of the fragment; spec section 4.2:
`tohost = 0`). -/
def HTIF_TOHOST_REL_ADDR : Nat := 0

/-- Modelled from the spec: relative address of the HTIF `fromhost` CSR
(`htif::csr::fromhost` in htif.h, not part of the fragment; spec section
4.2: `fromhost = 8`). -/
def HTIF_FROMHOST_REL_ADDR : Nat := 8

/-- Modelled from the spec: `PMA_PAGE_SIZE` (pma.h, not part of the
fragment; spec section 3: pages are 4 KiB). -/
def PMA_PAGE_SIZE : Nat := 4096

/-- The `htif` device object state (class `htif`): the interactive flag,
the unread console input `m_buf[m_buf_pos .. m_buf_len)` as a list, the
`m_fromhost_pending` flag, and `m_divisor_counter`. -/
structure HtifState where
  interactive : Bool
  buf : List Nat
  fromhost_pending : Bool
  divisor_counter : Nat
deriving DecidableEq, Repr

/-- `htif::poll_console` (htif.cpp).  The host stdin is modelled by
`stdinData`: `none` means `select` reported no data ready; `some bs` means
`select` reported data and `read` returned the bytes `bs` (the code maps a
non-positive `read` result, `bs = []` here, to a single CTRL+D byte). -/
def poll_console (stdinData : Option (List Nat)) (h : HtifState) (s : MachineState) :
    HtifState × MachineState :=
  if h.fromhost_pending then (h, s)
  else
    let buf := if h.buf.isEmpty then
        match stdinData with
        | none => h.buf
        | some bs => if bs.isEmpty then [4] else bs
      else h.buf
    match buf with
    | [] => (h, s)
    | b :: rest =>
        ({ h with buf := rest, fromhost_pending := true },
          write_htif_fromhost s ((1 <<< 56) ||| (0 <<< 48) ||| b))

/-- `htif::interact` (htif.cpp), parametrized by the divisor
`HTIF_INTERACT_DIVISOR` (defined in htif.h, not part of the fragment):
`if (m_interactive && ++m_divisor_counter >= HTIF_INTERACT_DIVISOR)
 { m_divisor_counter = 0; poll_console(); }`. -/
def interact (D : Nat) (stdinData : Option (List Nat)) (h : HtifState) (s : MachineState) :
    HtifState × MachineState :=
  if h.interactive ∧ h.divisor_counter + 1 ≥ D then
    poll_console stdinData { h with divisor_counter := 0 } s
  else if h.interactive then
    ({ h with divisor_counter := h.divisor_counter + 1 }, s)
  else (h, s)

/-- Whether a call to `htif::interact` on state `h` reaches `poll_console`. -/
def interact_polls (D : Nat) (h : HtifState) : Bool :=
  h.interactive && decide (h.divisor_counter + 1 ≥ D)

/-- Iterated `htif::interact` calls, with a stdin oracle giving the host
input available at each call. -/
def interact_iter (D : Nat) (oracle : Nat → Option (List Nat))
    (h : HtifState) (s : MachineState) : Nat → HtifState × MachineState
  | 0 => (h, s)
  | n + 1 =>
      let p := interact_iter D oracle h s n
      interact D (oracle n) p.1 p.2

/-- `htif_write_getchar` (htif.cpp): acknowledge by zeroing `tohost`. -/
def htif_write_getchar (h : HtifState) (s : MachineState) (payload : Nat) :
    Bool × HtifState × MachineState :=
  (true, h, write_htif_tohost s 0)

/-- `htif_write_putchar` (htif.cpp): acknowledge by zeroing `tohost`, emit
`payload & 0xff` on the host stdout, set `fromhost = (1 << 56) | (1 << 48)`. -/
def htif_write_putchar (h : HtifState) (s : MachineState) (payload : Nat) :
    Bool × HtifState × MachineState :=
  let s1 := write_htif_tohost s 0
  let ch := payload &&& 0xff
  let s2 := { s1 with stdout := s1.stdout ++ [ch] }
  (true, h, write_htif_fromhost s2 ((1 <<< 56) ||| (1 <<< 48)))

/-- `htif_write_halt` (htif.cpp): set `iflags.H`; leave the `tohost` value
alone so the payload can be read afterwards. -/
def htif_write_halt (h : HtifState) (s : MachineState) (payload : Nat) :
    Bool × HtifState × MachineState :=
  (true, h, set_iflags_H s)

/-- `htif_write_tohost` (htif.cpp): decode `device = tohost >> 56`,
`cmd = (tohost >> 48) & 0xff`, `payload = tohost & (~1ULL >> 16)`, log the
write to `tohost`, then dispatch on the recognized commands; unknown
commands are silently ignored. -/
def htif_write_tohost (h : HtifState) (s : MachineState) (tohost : Nat) :
    Bool × HtifState × MachineState :=
  let device := tohost >>> 56
  let cmd := (tohost >>> 48) &&& 0xff
  let payload := tohost &&& (0xfffffffffffffffe >>> 16)
  let s1 := write_htif_tohost s tohost
  if device = 0 ∧ cmd = 0 ∧ payload &&& 1 = 1 then htif_write_halt h s1 payload
  else if device = 1 ∧ cmd = 1 then htif_write_putchar h s1 payload
  else if device = 1 ∧ cmd = 0 then htif_write_getchar h s1 payload
  else (true, h, s1)

/-- `htif_write_fromhost` (htif.cpp): write `fromhost`; when interactive,
reset the pending flag and poll the console. -/
def htif_write_fromhost (stdinData : Option (List Nat)) (h : HtifState)
    (s : MachineState) (v : Nat) : Bool × HtifState × MachineState :=
  let s1 := write_htif_fromhost s v
  if h.interactive then
    let p := poll_console stdinData { h with fromhost_pending := false } s1
    (true, p.1, p.2)
  else (true, h, s1)

/-- `htif_read` (htif.cpp): only aligned 64-bit reads of `tohost` or
`fromhost` succeed; `none` models a `false` return (access exception). -/
def htif_read (s : MachineState) (offset : Nat) (size_log2 : Nat) : Option Nat :=
  if size_log2 ≠ 3 ∨ offset &&& 7 ≠ 0 then none
  else if offset = HTIF_TOHOST_REL_ADDR then some (read_htif_tohost s)
  else if offset = HTIF_FROMHOST_REL_ADDR then some (read_htif_fromhost s)
  else none

/-- `htif_write` (htif.cpp): only aligned 64-bit writes to `tohost` or
`fromhost` succeed; the Bool component is the callback's return value and
the rest is the (device, machine) state it leaves behind. -/
def htif_write (stdinData : Option (List Nat)) (h : HtifState) (s : MachineState)
    (offset val size_log2 : Nat) : Bool × HtifState × MachineState :=
  if size_log2 ≠ 3 ∨ offset &&& 7 ≠ 0 then (false, h, s)
  else if offset = HTIF_TOHOST_REL_ADDR then htif_write_tohost h s val
  else if offset = HTIF_FROMHOST_REL_ADDR then htif_write_fromhost stdinData h s val
  else (false, h, s)

/-- Result of the `htif_peek` callback (htif.cpp): `fail` is a `false`
return, `pristine` is a `true` return with `page_data = nullptr`, and
`page f` is a `true` return with the scratch page filled with bytes `f`. -/
inductive PeekResult where
  | fail : PeekResult
  | pristine : PeekResult
  | page : (Nat → Nat) → PeekResult

/-- `htif_peek` (htif.cpp): refuse misaligned or out-of-range page offsets;
every page but page 0 is pristine; page 0 is the zeroed scratch page with
`tohost` and `fromhost` written little-endian at their relative addresses. -/
def htif_peek (s : MachineState) (pma_length page_offset : Nat) : PeekResult :=
  if page_offset % PMA_PAGE_SIZE ≠ 0 ∨ page_offset ≥ pma_length then .fail
  else if page_offset ≠ 0 then .pristine
  else .page (fun i =>
    if i < HTIF_FROMHOST_REL_ADDR then
      (read_htif_tohost s >>> (8 * i)) &&& 0xff
    else if i < HTIF_FROMHOST_REL_ADDR + 8 then
      (read_htif_fromhost s >>> (8 * (i - HTIF_FROMHOST_REL_ADDR))) &&& 0xff
    else 0)

/-! ### Command decoding predicates

Characterizations of the `(device, cmd)` tuples recognized by
`htif_write_tohost`, matching its decode of the written value. -/

/-- The halt command: `device = 0`, `cmd = 0`, odd payload. -/
def htif_halt_cmd (v : Nat) : Prop :=
  v >>> 56 = 0 ∧ (v >>> 48) &&& 0xff = 0 ∧ (v &&& (0xfffffffffffffffe >>> 16)) &&& 1 = 1

/-- The putchar command: `device = 1`, `cmd = 1`. -/
def htif_putchar_cmd (v : Nat) : Prop :=
  v >>> 56 = 1 ∧ (v >>> 48) &&& 0xff = 1

/-- The getchar command: `device = 1`, `cmd = 0`. -/
def htif_getchar_cmd (v : Nat) : Prop :=
  v >>> 56 = 1 ∧ (v >>> 48) &&& 0xff = 0

instance (v : Nat) : Decidable (htif_halt_cmd v) := by
  unfold htif_halt_cmd; infer_instance

instance (v : Nat) : Decidable (htif_putchar_cmd v) := by
  unfold htif_putchar_cmd; infer_instance

instance (v : Nat) : Decidable (htif_getchar_cmd v) := by
  unfold htif_getchar_cmd; infer_instance

/-! ### Helper lemmas -/

/-- `offset & 7` is `offset` modulo 8. -/
theorem and_seven_eq_mod (n : Nat) : n &&& 7 = n % 8 := by
  have h : (7 : Nat) = 2 ^ 3 - 1 := rfl
  rw [h, Nat.and_pow_two_sub_one_eq_mod]

/-! ### C1: the break-flag update operations -/

/-- C1 (amended): `set_brk_from_mip_mie` sets `brk` to `(mip & mie) ≠ 0` alone,
`set_brk_from_iflags_H` sets `brk` to `iflags.H` alone (the state has no
`iflags.Y` or `iflags.X` fields in this revision), and neither setter
changes any other field of the state. -/
theorem C1_brk_update (s : MachineState) :
    (set_brk_from_mip_mie s).brk = (s.mip &&& s.mie != 0) ∧
    (set_brk_from_iflags_H s).brk = s.iflags.H ∧
    { set_brk_from_mip_mie s with brk := s.brk } = s ∧
    { set_brk_from_iflags_H s with brk := s.brk } = s := by
  refine ⟨rfl, rfl, ?_, ?_⟩ <;> cases s <;> rfl

/-- C1 (counterexample): a state with `mip & mie ≠ 0` and `iflags.H = false`
violates `brk ⇔ (mip & mie) ≠ 0 ∨ iflags.H` immediately after
`set_brk_from_iflags_H()` (adding the nonexistent `Y`/`X` disjuncts cannot
repair this, since the right-hand side is already true). -/
theorem C1_counterexample :
    ¬ ((set_brk_from_iflags_H
          ⟨0, 1, 1, ⟨0, false, false⟩, 0, 0, 0, true, []⟩).brk = true ↔
        ((set_brk_from_iflags_H
            ⟨0, 1, 1, ⟨0, false, false⟩, 0, 0, 0, true, []⟩).mip &&&
          (set_brk_from_iflags_H
            ⟨0, 1, 1, ⟨0, false, false⟩, 0, 0, 0, true, []⟩).mie ≠ 0 ∨
          (set_brk_from_iflags_H
            ⟨0, 1, 1, ⟨0, false, false⟩, 0, 0, 0, true, []⟩).iflags.H = true)) := by
  decide

/-! ### C2: unknown HTIF commands -/

/-- C2 (amended): a write of `v` to `tohost` whose decoded `(device, cmd)`
pair is not one of the recognized commands succeeds (returns true) and is
silently ignored, leaving `tohost` equal to the written value `v` (not 0),
with `fromhost`, `iflags`, the host stdout, and the htif object state
unchanged. -/
theorem C2_unknown_command (h : HtifState) (s : MachineState) (v : Nat)
    (hv : v < 2 ^ 64) (hna : ¬ htif_halt_cmd v) (hnb : ¬ htif_putchar_cmd v)
    (hnc : ¬ htif_getchar_cmd v) :
    htif_write_tohost h s v = (true, h, { s with tohost := v }) := by
  unfold htif_halt_cmd at hna
  unfold htif_putchar_cmd at hnb
  unfold htif_getchar_cmd at hnc
  simp only [htif_write_tohost]
  rw [if_neg hna]
  rw [if_neg (fun hc => hnb ⟨hc.1, hc.2⟩)]
  rw [if_neg (fun hc => hnc ⟨hc.1, hc.2⟩)]
  rfl

/-- C2 (counterexample): writing `v = 2` to `tohost` decodes to
`device = 0`, `cmd = 0`, even payload — an unrecognized command — and
afterwards `tohost` is 2, not 0 as the claim states. -/
theorem C2_counterexample :
    (htif_write_tohost ⟨false, [], false, 0⟩
        ⟨0, 0, 0, ⟨0, false, false⟩, 0, 0, 0, false, []⟩ 2).2.2.tohost ≠ 0 := by
  decide

/-! ### C3: the HTIF halt command -/

/-- C3: a write of `v` to `tohost` with `device = 0`, `cmd = 0` and odd
payload succeeds, sets `iflags.H`, and leaves the written value readable in
`tohost` (`read_htif_tohost` returns `v`); `fromhost` and the htif object
state are untouched. -/
theorem C3_halt_command (h : HtifState) (s : MachineState) (v : Nat)
    (hv : v < 2 ^ 64) (hc : htif_halt_cmd v) :
    htif_write_tohost h s v = (true, h, set_iflags_H { s with tohost := v }) ∧
    read_htif_tohost (htif_write_tohost h s v).2.2 = v ∧
    (htif_write_tohost h s v).2.2.iflags.H = true ∧
    (htif_write_tohost h s v).2.2.fromhost = s.fromhost := by
  have he : htif_write_tohost h s v =
      (true, h, set_iflags_H { s with tohost := v }) := by
    unfold htif_halt_cmd at hc
    simp only [htif_write_tohost]
    rw [if_pos hc]
    rfl
  exact ⟨he, by rw [he]; rfl, by rw [he]; rfl, by rw [he]; rfl⟩

/-- C3 witness: writing `tohost = 1` halts the machine and
`read_htif_tohost()` returns 1 afterwards. -/
theorem C3_halt_command_witness :
    htif_write_tohost ⟨false, [], false, 0⟩
        ⟨0, 0, 0, ⟨0, false, false⟩, 0, 0, 0, false, []⟩ 1 =
      (true, ⟨false, [], false, 0⟩,
        set_iflags_H { (⟨0, 0, 0, ⟨0, false, false⟩, 0, 0, 0, false, []⟩ :
          MachineState) with tohost := 1 }) ∧
    read_htif_tohost (htif_write_tohost ⟨false, [], false, 0⟩
        ⟨0, 0, 0, ⟨0, false, false⟩, 0, 0, 0, false, []⟩ 1).2.2 = 1 ∧
    (htif_write_tohost ⟨false, [], false, 0⟩
        ⟨0, 0, 0, ⟨0, false, false⟩, 0, 0, 0, false, []⟩ 1).2.2.iflags.H = true ∧
    (htif_write_tohost ⟨false, [], false, 0⟩
        ⟨0, 0, 0, ⟨0, false, false⟩, 0, 0, 0, false, []⟩ 1).2.2.fromhost =
      (⟨0, 0, 0, ⟨0, false, false⟩, 0, 0, 0, false, []⟩ : MachineState).fromhost :=
  C3_halt_command ⟨false, [], false, 0⟩
    ⟨0, 0, 0, ⟨0, false, false⟩, 0, 0, 0, false, []⟩ 1
    (by decide) (by decide)

/-- C2 witness: the unknown command `v = 7 <<< 56` (device 7) is acked by
retaining the written value in `tohost`. -/
theorem C2_unknown_command_witness :
    htif_write_tohost ⟨false, [], false, 0⟩
        ⟨0, 0, 0, ⟨0, false, false⟩, 0, 0, 0, false, []⟩ (7 <<< 56) =
      (true, ⟨false, [], false, 0⟩,
        { (⟨0, 0, 0, ⟨0, false, false⟩, 0, 0, 0, false, []⟩ :
          MachineState) with tohost := 7 <<< 56 }) :=
  C2_unknown_command ⟨false, [], false, 0⟩
    ⟨0, 0, 0, ⟨0, false, false⟩, 0, 0, 0, false, []⟩ (7 <<< 56)
    (by decide) (by decide) (by decide) (by decide)

/-! ### C4: the HTIF putchar command -/

/-- C4: a write of `v` to `tohost` with `device = 1`, `cmd = 1` succeeds,
emits the byte `v & 0xff` on the host stdout, acknowledges by zeroing
`tohost`, and sets `fromhost = (1 << 56) | (1 << 48)`. -/
theorem C4_putchar_command (h : HtifState) (s : MachineState) (v : Nat)
    (hv : v < 2 ^ 64) (hc : htif_putchar_cmd v) :
    (htif_write_tohost h s v).1 = true ∧
    (htif_write_tohost h s v).2.1 = h ∧
    (htif_write_tohost h s v).2.2.stdout = s.stdout ++ [v &&& 0xff] ∧
    (htif_write_tohost h s v).2.2.tohost = 0 ∧
    (htif_write_tohost h s v).2.2.fromhost = (1 <<< 56) ||| (1 <<< 48) := by
  unfold htif_putchar_cmd at hc
  have hbyte : (v &&& 0xfffffffffffffffe >>> 16) &&& 0xff = v &&& 0xff := by
    have hm : (0xfffffffffffffffe >>> 16 : Nat) &&& 0xff = 0xff := by decide
    rw [Nat.and_assoc, hm]
  have he : htif_write_tohost h s v =
      htif_write_putchar h (write_htif_tohost s v)
        (v &&& 0xfffffffffffffffe >>> 16) := by
    simp only [htif_write_tohost]
    rw [if_neg (fun hcon => by omega), if_pos hc]
  rw [he]
  simp only [htif_write_putchar, write_htif_tohost, write_htif_fromhost, hbyte]
  exact ⟨trivial, trivial, trivial, trivial, trivial⟩

/-- C4 witness: writing `tohost = (1<<56)|(1<<48)|0x41` emits byte `0x41`,
zeroes `tohost`, and sets `fromhost = (1<<56)|(1<<48)`. -/
theorem C4_putchar_command_witness :
    (htif_write_tohost ⟨false, [], false, 0⟩
        ⟨0, 0, 0, ⟨0, false, false⟩, 0, 0, 0, false, []⟩
        ((1 <<< 56) ||| (1 <<< 48) ||| 0x41)).1 = true ∧
    (htif_write_tohost ⟨false, [], false, 0⟩
        ⟨0, 0, 0, ⟨0, false, false⟩, 0, 0, 0, false, []⟩
        ((1 <<< 56) ||| (1 <<< 48) ||| 0x41)).2.1 = (⟨false, [], false, 0⟩ : HtifState) ∧
    (htif_write_tohost ⟨false, [], false, 0⟩
        ⟨0, 0, 0, ⟨0, false, false⟩, 0, 0, 0, false, []⟩
        ((1 <<< 56) ||| (1 <<< 48) ||| 0x41)).2.2.stdout =
      (⟨0, 0, 0, ⟨0, false, false⟩, 0, 0, 0, false, []⟩ : MachineState).stdout ++
        [((1 <<< 56) ||| (1 <<< 48) ||| 0x41) &&& 0xff] ∧
    (htif_write_tohost ⟨false, [], false, 0⟩
        ⟨0, 0, 0, ⟨0, false, false⟩, 0, 0, 0, false, []⟩
        ((1 <<< 56) ||| (1 <<< 48) ||| 0x41)).2.2.tohost = 0 ∧
    (htif_write_tohost ⟨false, [], false, 0⟩
        ⟨0, 0, 0, ⟨0, false, false⟩, 0, 0, 0, false, []⟩
        ((1 <<< 56) ||| (1 <<< 48) ||| 0x41)).2.2.fromhost = (1 <<< 56) ||| (1 <<< 48) :=
  C4_putchar_command ⟨false, [], false, 0⟩
    ⟨0, 0, 0, ⟨0, false, false⟩, 0, 0, 0, false, []⟩
    ((1 <<< 56) ||| (1 <<< 48) ||| 0x41) (by decide) (by decide)

/-! ### C5: the HTIF getchar command and delayed input delivery -/

/-- C5: a getchar write (`device = 1`, `cmd = 0`) only zeroes `tohost` —
`fromhost`, `iflags` and the whole htif object state (in particular
`fromhost_pending`) are untouched by the write itself; a byte `b` is
delivered only by a console poll, which (when no command is pending and
input is buffered) writes `fromhost = (1 << 56) | b` and sets
`fromhost_pending`. -/
theorem C5_getchar_command :
    (∀ (h : HtifState) (s : MachineState) (v : Nat), v < 2 ^ 64 →
      htif_getchar_cmd v →
      htif_write_tohost h s v = (true, h, { s with tohost := 0 })) ∧
    (∀ (stdinData : Option (List Nat)) (h : HtifState) (s : MachineState)
        (b : Nat) (rest : List Nat),
      h.fromhost_pending = false → h.buf = b :: rest →
      poll_console stdinData h s =
        ({ h with buf := rest, fromhost_pending := true },
          { s with fromhost := (1 <<< 56) ||| b })) := by
  constructor
  · intro h s v _ hc
    unfold htif_getchar_cmd at hc
    simp only [htif_write_tohost]
    rw [if_neg (fun hcon => by omega), if_neg (fun hcon => by omega), if_pos hc]
    rfl
  · intro stdinData h s b rest hp hb
    simp only [poll_console, hp, hb, Bool.false_eq_true, if_false, List.isEmpty_cons,
      write_htif_fromhost]
    have hz : (1 <<< 56) ||| (0 <<< 48) ||| b = (1 <<< 56) ||| b := by
      rw [Nat.zero_shiftLeft, Nat.or_zero]
    rw [hz]

/-- C5 witness: a concrete getchar write only zeroes `tohost`, and a
concrete poll on a machine with a buffered byte 0x61 delivers
`fromhost = (1<<56)|0x61` with `fromhost_pending` set. -/
theorem C5_getchar_command_witness :
    htif_write_tohost ⟨true, [0x61], false, 0⟩
        ⟨0, 0, 0, ⟨0, false, false⟩, 0, 5, 0, false, []⟩ (1 <<< 56) =
      (true, ⟨true, [0x61], false, 0⟩,
        { (⟨0, 0, 0, ⟨0, false, false⟩, 0, 5, 0, false, []⟩ :
          MachineState) with tohost := 0 }) ∧
    poll_console none ⟨true, [0x61], false, 0⟩
        ⟨0, 0, 0, ⟨0, false, false⟩, 0, 0, 0, false, []⟩ =
      ({ (⟨true, [0x61], false, 0⟩ : HtifState) with
          buf := ([] : List Nat), fromhost_pending := true },
        { (⟨0, 0, 0, ⟨0, false, false⟩, 0, 0, 0, false, []⟩ :
          MachineState) with fromhost := (1 <<< 56) ||| 0x61 }) :=
  ⟨C5_getchar_command.1 ⟨true, [0x61], false, 0⟩
      ⟨0, 0, 0, ⟨0, false, false⟩, 0, 5, 0, false, []⟩ (1 <<< 56)
      (by decide) (by decide),
    C5_getchar_command.2 none ⟨true, [0x61], false, 0⟩
      ⟨0, 0, 0, ⟨0, false, false⟩, 0, 0, 0, false, []⟩ 0x61 [] rfl rfl⟩

/-! ### C6: HTIF access control -/

/-- Every dispatched `tohost` write returns true. -/
theorem htif_write_tohost_fst (h : HtifState) (s : MachineState) (v : Nat) :
    (htif_write_tohost h s v).1 = true := by
  simp only [htif_write_tohost]
  split_ifs <;> rfl

/-- Every dispatched `fromhost` write returns true. -/
theorem htif_write_fromhost_fst (stdinData : Option (List Nat)) (h : HtifState)
    (s : MachineState) (v : Nat) : (htif_write_fromhost stdinData h s v).1 = true := by
  simp only [htif_write_fromhost]
  split_ifs <;> rfl

/-- C6: an HTIF device read succeeds exactly for an aligned 64-bit access
(`size_log2 = 3`, offset multiple of 8) at `tohost` (0) or `fromhost` (8);
an HTIF device write succeeds under exactly the same condition; every
other access is refused (the callback returns false), leaving the machine
state — in particular `tohost` and `fromhost` — and the htif object state
unchanged. -/
theorem C6_access_control :
    (∀ (s : MachineState) (offset sz : Nat),
      (htif_read s offset sz).isSome = true ↔
        (sz = 3 ∧ offset % 8 = 0 ∧ (offset = 0 ∨ offset = 8))) ∧
    (∀ (stdinData : Option (List Nat)) (h : HtifState) (s : MachineState)
        (offset v sz : Nat),
      (htif_write stdinData h s offset v sz).1 = true ↔
        (sz = 3 ∧ offset % 8 = 0 ∧ (offset = 0 ∨ offset = 8))) ∧
    (∀ (stdinData : Option (List Nat)) (h : HtifState) (s : MachineState)
        (offset v sz : Nat),
      ¬ (sz = 3 ∧ offset % 8 = 0 ∧ (offset = 0 ∨ offset = 8)) →
      htif_write stdinData h s offset v sz = (false, h, s)) := by
  refine ⟨?_, ?_, ?_⟩
  · intro s offset sz
    rw [← and_seven_eq_mod]
    unfold htif_read HTIF_TOHOST_REL_ADDR HTIF_FROMHOST_REL_ADDR
    split_ifs with h1 h2 h3 <;> simp_all <;> tauto
  · intro stdinData h s offset v sz
    rw [← and_seven_eq_mod]
    unfold htif_write HTIF_TOHOST_REL_ADDR HTIF_FROMHOST_REL_ADDR
    split_ifs with h1 h2 h3 <;>
      simp_all [htif_write_tohost_fst, htif_write_fromhost_fst] <;> tauto
  · intro stdinData h s offset v sz hn
    rw [← and_seven_eq_mod] at hn
    unfold htif_write HTIF_TOHOST_REL_ADDR HTIF_FROMHOST_REL_ADDR
    split_ifs with h1 h2 h3
    · rfl
    · push_neg at h1
      exact absurd ⟨h1.1, h1.2, Or.inl h2⟩ hn
    · push_neg at h1
      exact absurd ⟨h1.1, h1.2, Or.inr h3⟩ hn
    · rfl

/-- C6 witness: a 32-bit read at offset 0 is refused, an aligned 64-bit read
at offset 0 succeeds, and a misaligned write at offset 4 is refused leaving
the state unchanged. -/
theorem C6_access_control_witness :
    ((htif_read ⟨0, 0, 0, ⟨0, false, false⟩, 0, 0, 0, false, []⟩ 0 2).isSome = true ↔
      ((2 : Nat) = 3 ∧ (0 : Nat) % 8 = 0 ∧ ((0 : Nat) = 0 ∨ (0 : Nat) = 8))) ∧
    ((htif_write none ⟨false, [], false, 0⟩
        ⟨0, 0, 0, ⟨0, false, false⟩, 0, 0, 0, false, []⟩ 0 5 3).1 = true ↔
      ((3 : Nat) = 3 ∧ (0 : Nat) % 8 = 0 ∧ ((0 : Nat) = 0 ∨ (0 : Nat) = 8))) ∧
    htif_write none ⟨false, [], false, 0⟩
        ⟨0, 0, 0, ⟨0, false, false⟩, 0, 0, 0, false, []⟩ 4 5 3 =
      (false, ⟨false, [], false, 0⟩,
        ⟨0, 0, 0, ⟨0, false, false⟩, 0, 0, 0, false, []⟩) :=
  ⟨C6_access_control.1 ⟨0, 0, 0, ⟨0, false, false⟩, 0, 0, 0, false, []⟩ 0 2,
    C6_access_control.2.1 none ⟨false, [], false, 0⟩
      ⟨0, 0, 0, ⟨0, false, false⟩, 0, 0, 0, false, []⟩ 0 5 3,
    C6_access_control.2.2 none ⟨false, [], false, 0⟩
      ⟨0, 0, 0, ⟨0, false, false⟩, 0, 0, 0, false, []⟩ 4 5 3 (by decide)⟩

/-! ### C7: the HTIF peek callback -/

/-- C7: the peek callback refuses misaligned or out-of-range page offsets;
every aligned in-range page other than page 0 is reported pristine
(`page_ptr = nullptr`, return true); page 0 is returned as a scratch page
that is all zeros except the little-endian `tohost` bytes at offset 0 and
the little-endian `fromhost` bytes at offset 8. -/
theorem C7_peek (s : MachineState) (len po : Nat) :
    (po % PMA_PAGE_SIZE ≠ 0 ∨ po ≥ len → htif_peek s len po = PeekResult.fail) ∧
    (po % PMA_PAGE_SIZE = 0 → po < len → po ≠ 0 →
      htif_peek s len po = PeekResult.pristine) ∧
    (po = 0 → 0 < len →
      ∃ f, htif_peek s len po = PeekResult.page f ∧
        (∀ i, i < 8 → f i = (s.tohost >>> (8 * i)) &&& 0xff) ∧
        (∀ i, 8 ≤ i → i < 16 → f i = (s.fromhost >>> (8 * (i - 8))) &&& 0xff) ∧
        (∀ i, 16 ≤ i → f i = 0)) := by
  refine ⟨?_, ?_, ?_⟩
  · intro hcond
    unfold htif_peek
    rw [if_pos hcond]
  · intro h0 hlt hne
    unfold htif_peek
    rw [if_neg (by push_neg; exact ⟨h0, by omega⟩), if_pos hne]
  · intro h0 hlen
    subst h0
    unfold htif_peek
    rw [if_neg (by push_neg; exact ⟨Nat.zero_mod _, by omega⟩),
      if_neg (fun hc => hc rfl)]
    refine ⟨_, rfl, ?_, ?_, ?_⟩
    · intro i hi
      simp only [read_htif_tohost, HTIF_FROMHOST_REL_ADDR]
      rw [if_pos hi]
    · intro i h8 h16
      simp only [read_htif_fromhost, HTIF_FROMHOST_REL_ADDR]
      rw [if_neg (by omega), if_pos (by omega)]
    · intro i h16
      simp only [HTIF_FROMHOST_REL_ADDR]
      rw [if_neg (by omega), if_neg (by omega)]

/-- C7 witness: over a two-page HTIF range, an out-of-range page offset is
refused, the aligned second page is pristine, and page 0 is materialized
with the tohost/fromhost bytes of a concrete machine state. -/
theorem C7_peek_witness :
    htif_peek ⟨0, 0, 0, ⟨0, false, false⟩, 0, 0x1234, 0x56, false, []⟩ 8192 8192 =
      PeekResult.fail ∧
    htif_peek ⟨0, 0, 0, ⟨0, false, false⟩, 0, 0x1234, 0x56, false, []⟩ 8192 4096 =
      PeekResult.pristine ∧
    (∃ f, htif_peek ⟨0, 0, 0, ⟨0, false, false⟩, 0, 0x1234, 0x56, false, []⟩
        8192 0 = PeekResult.page f ∧
      (∀ i, i < 8 → f i =
        ((⟨0, 0, 0, ⟨0, false, false⟩, 0, 0x1234, 0x56, false, []⟩ :
          MachineState).tohost >>> (8 * i)) &&& 0xff) ∧
      (∀ i, 8 ≤ i → i < 16 → f i =
        ((⟨0, 0, 0, ⟨0, false, false⟩, 0, 0x1234, 0x56, false, []⟩ :
          MachineState).fromhost >>> (8 * (i - 8))) &&& 0xff) ∧
      (∀ i, 16 ≤ i → f i = 0)) :=
  ⟨(C7_peek ⟨0, 0, 0, ⟨0, false, false⟩, 0, 0x1234, 0x56, false, []⟩ 8192 8192).1
      (by decide),
    (C7_peek ⟨0, 0, 0, ⟨0, false, false⟩, 0, 0x1234, 0x56, false, []⟩ 8192 4096).2.1
      (by decide) (by decide) (by decide),
    (C7_peek ⟨0, 0, 0, ⟨0, false, false⟩, 0, 0x1234, 0x56, false, []⟩ 8192 0).2.2
      rfl (by decide)⟩

/-! ### C8: the RTC time derivation -/

/-- C8: `rtc_cycle_to_time(c)` is floor division of the cycle count by
`RTC_FREQ_DIV = 100`; the `mtime` value read back is derived from `mcycle`
on demand (the CLINT shadow state stores only `mtimecmp`), and for
`mcycle = 1000` it is exactly 10. -/
theorem C8_rtc_time (s : MachineState) :
    rtc_cycle_to_time s.mcycle = s.mcycle / 100 ∧
    read_clint_mtime s = s.mcycle / 100 ∧
    (s.mcycle = 1000 → read_clint_mtime s = 10) := by
  refine ⟨rfl, rfl, fun h => ?_⟩
  rw [read_clint_mtime, h]
  decide

/-- C8 witness: at `mcycle = 1000`, the derived `mtime` is exactly 10. -/
theorem C8_rtc_time_witness :
    read_clint_mtime ⟨1000, 0, 0, ⟨0, false, false⟩, 0, 0, 0, false, []⟩ = 10 :=
  (C8_rtc_time ⟨1000, 0, 0, ⟨0, false, false⟩, 0, 0, 0, false, []⟩).2.2 rfl

/-! ### C9: interact rate limiting -/

/-- `poll_console` never touches the interactive flag or the divisor counter. -/
theorem poll_console_keeps_counter (stdinData : Option (List Nat))
    (h : HtifState) (s : MachineState) :
    (poll_console stdinData h s).1.interactive = h.interactive ∧
    (poll_console stdinData h s).1.divisor_counter = h.divisor_counter := by
  obtain ⟨hin, hbuf, hfp, hdc⟩ := h
  cases hfp
  · cases hbuf with
    | nil =>
      cases stdinData with
      | none => exact ⟨rfl, rfl⟩
      | some bs =>
        cases bs with
        | nil => exact ⟨rfl, rfl⟩
        | cons b rest => exact ⟨rfl, rfl⟩
    | cons b rest => exact ⟨rfl, rfl⟩
  · exact ⟨rfl, rfl⟩

/-- One `interact` call on an interactive htif advances the divisor counter
modulo the divisor. -/
theorem interact_counter_step (D : Nat) (stdinData : Option (List Nat))
    (h : HtifState) (s : MachineState) (hi : h.interactive = true)
    (hc : h.divisor_counter < D) :
    (interact D stdinData h s).1.interactive = true ∧
    (interact D stdinData h s).1.divisor_counter = (h.divisor_counter + 1) % D := by
  unfold interact
  by_cases hge : h.divisor_counter + 1 ≥ D
  · rw [if_pos ⟨hi, hge⟩]
    have hD : h.divisor_counter + 1 = D := by omega
    obtain ⟨p1, p2⟩ := poll_console_keeps_counter stdinData
      { h with divisor_counter := 0 } s
    refine ⟨by rw [p1]; exact hi, by rw [p2, hD, Nat.mod_self]⟩
  · rw [if_neg (fun hcon => hge hcon.2), if_pos hi]
    refine ⟨hi, ?_⟩
    show h.divisor_counter + 1 = (h.divisor_counter + 1) % D
    rw [Nat.mod_eq_of_lt (by omega)]

/-- After `n` `interact` calls on an interactive htif whose counter starts
below the divisor, the machine is still interactive and the counter is the
initial counter plus `n`, modulo the divisor. -/
theorem interact_iter_counter (D : Nat) (oracle : Nat → Option (List Nat))
    (h : HtifState) (s : MachineState) (hD : 0 < D) (hi : h.interactive = true)
    (hc : h.divisor_counter < D) : ∀ n : Nat,
    (interact_iter D oracle h s n).1.interactive = true ∧
    (interact_iter D oracle h s n).1.divisor_counter = (h.divisor_counter + n) % D
  | 0 => ⟨hi, by
    show h.divisor_counter = (h.divisor_counter + 0) % D
    rw [Nat.add_zero, Nat.mod_eq_of_lt hc]⟩
  | n + 1 => by
    obtain ⟨ih1, ih2⟩ := interact_iter_counter D oracle h s hD hi hc n
    obtain ⟨e1, e2⟩ := interact_counter_step D (oracle n)
      (interact_iter D oracle h s n).1 (interact_iter D oracle h s n).2 ih1
      (by rw [ih2]; exact Nat.mod_lt _ hD)
    have hu : interact_iter D oracle h s (n + 1) =
        interact D (oracle n) (interact_iter D oracle h s n).1
          (interact_iter D oracle h s n).2 := rfl
    rw [hu]
    refine ⟨e1, ?_⟩
    rw [e2, ih2, Nat.mod_add_mod, ← Nat.add_assoc]

/-- C9: on an interactive HTIF the console poll is rate-limited — if the
calls numbered `i + 1` and `j + 1` of a run of consecutive `interact()`
calls both reach `poll_console`, then they are at least
`HTIF_INTERACT_DIVISOR` (here the parameter `D`) calls apart — and a
non-interactive HTIF never polls and is left unchanged by `interact()`. -/
theorem C9_interact_rate_limit :
    (∀ (D : Nat) (oracle : Nat → Option (List Nat)) (h : HtifState)
        (s : MachineState) (i j : Nat),
      0 < D → h.interactive = true → h.divisor_counter < D → i < j →
      interact_polls D (interact_iter D oracle h s i).1 = true →
      interact_polls D (interact_iter D oracle h s j).1 = true →
      D ≤ j - i) ∧
    (∀ (D : Nat) (stdinData : Option (List Nat)) (h : HtifState) (s : MachineState),
      h.interactive = false →
      interact D stdinData h s = (h, s) ∧ interact_polls D h = false) := by
  constructor
  · intro D oracle h s i j hD hi hc hij hpi hpj
    obtain ⟨ii1, ii2⟩ := interact_iter_counter D oracle h s hD hi hc i
    obtain ⟨ij1, ij2⟩ := interact_iter_counter D oracle h s hD hi hc j
    unfold interact_polls at hpi hpj
    rw [ii1, ii2] at hpi
    rw [ij1, ij2] at hpj
    simp only [Bool.true_and, decide_eq_true_eq, ge_iff_le] at hpi hpj
    have hmi : (h.divisor_counter + i) % D = D - 1 := by
      have := Nat.mod_lt (h.divisor_counter + i) hD
      omega
    have hmj : (h.divisor_counter + j) % D = D - 1 := by
      have := Nat.mod_lt (h.divisor_counter + j) hD
      omega
    have hdvd : D ∣ (h.divisor_counter + j) - (h.divisor_counter + i) :=
      (Nat.modEq_iff_dvd' (by omega)).mp (by rw [Nat.ModEq, hmi, hmj])
    have heq : (h.divisor_counter + j) - (h.divisor_counter + i) = j - i := by omega
    rw [heq] at hdvd
    exact Nat.le_of_dvd (by omega) hdvd
  · intro D stdinData h s hni
    refine ⟨?_, ?_⟩
    · unfold interact
      rw [if_neg (fun hcon => by rw [hni] at hcon; exact absurd hcon.1 (by simp)),
        if_neg (by rw [hni]; simp)]
    · unfold interact_polls
      rw [hni, Bool.false_and]

/-- C9 witness: with divisor 2 and counter starting at 0, polls trigger at
the states reached after 1 and 3 calls, two (= the divisor) calls apart;
and a concrete non-interactive htif is unchanged and never polls. -/
theorem C9_interact_rate_limit_witness :
    (2 : Nat) ≤ 3 - 1 ∧
    (interact 2 none ⟨false, [], false, 0⟩
        ⟨0, 0, 0, ⟨0, false, false⟩, 0, 0, 0, false, []⟩ =
      (⟨false, [], false, 0⟩, ⟨0, 0, 0, ⟨0, false, false⟩, 0, 0, 0, false, []⟩) ∧
      interact_polls 2 ⟨false, [], false, 0⟩ = false) :=
  ⟨C9_interact_rate_limit.1 2 (fun _ => none) ⟨true, [], false, 0⟩
      ⟨0, 0, 0, ⟨0, false, false⟩, 0, 0, 0, false, []⟩ 1 3
      (by decide) rfl (by decide) (by decide) (by decide) (by decide),
    C9_interact_rate_limit.2 2 none ⟨false, [], false, 0⟩
      ⟨0, 0, 0, ⟨0, false, false⟩, 0, 0, 0, false, []⟩ rfl⟩

/-! ### C10: iflags pack/unpack round trips -/

/-- Bits of the literal 3 (the two-bit PRV field mask). -/
theorem testBit_three (k : Nat) : Nat.testBit 3 k = decide (k < 2) := by
  have h : (3 : Nat) = 2 ^ 2 - 1 := rfl
  rw [h, Nat.testBit_two_pow_sub_one]

/-- Bits of the literal 1 (a one-bit field mask). -/
theorem testBit_one_nat (k : Nat) : Nat.testBit 1 k = decide (k = 0) := by
  have h : (1 : Nat) = 2 ^ 1 - 1 := rfl
  rw [h, Nat.testBit_two_pow_sub_one]
  exact decide_eq_decide.mpr (by omega)

/-- `(n & 1 == 1).toNat` recovers `n & 1`. -/
theorem toNat_and_one_beq (n : Nat) : ((n &&& 1 == 1) : Bool).toNat = n &&& 1 := by
  rw [Nat.and_one_is_mod]
  rcases Nat.mod_two_eq_zero_or_one n with h | h <;> rw [h] <;> rfl

/-- Merge a shift guard with a width guard into one interval guard. -/
theorem ge_and_decide_lt (sh w j : Nat) :
    (decide (j ≥ sh) && decide (j - sh < w)) = decide (sh ≤ j ∧ j < sh + w) := by
  by_cases hs : sh ≤ j
  · have hg : (decide (j ≥ sh)) = true := by simp [hs]
    rw [hg, Bool.true_and]
    exact decide_eq_decide.mpr (by omega)
  · have hg : (decide (j ≥ sh)) = false := by simp [hs]
    have hr : decide (sh ≤ j ∧ j < sh + w) = false := by simp [hs]
    rw [hg, hr, Bool.false_and]

/-- Merge a shift guard with a zero-offset guard into an index equality. -/
theorem ge_and_decide_eq (sh j : Nat) :
    (decide (j ≥ sh) && decide (j - sh = 0)) = decide (j = sh) := by
  by_cases hs : sh ≤ j
  · have hg : (decide (j ≥ sh)) = true := by simp [hs]
    rw [hg, Bool.true_and]
    exact decide_eq_decide.mpr (by omega)
  · have hg : (decide (j ≥ sh)) = false := by simp [hs]
    have hr : decide (j = sh) = false := by
      simp only [decide_eq_false_iff_not]
      omega
    rw [hg, hr, Bool.false_and]

/-- Bits of a field of width `w` extracted from `v` at shift `sh` and put
back at the same shift. -/
theorem extract_testBit (v sh w j : Nat) :
    (((v >>> sh) &&& (2 ^ w - 1)) <<< sh).testBit j =
      (v.testBit j && decide (sh ≤ j ∧ j < sh + w)) := by
  rw [Nat.testBit_shiftLeft, Nat.testBit_and, Nat.testBit_shiftRight,
    Nat.testBit_two_pow_sub_one]
  by_cases hs : sh ≤ j
  · rw [Nat.add_sub_cancel' hs]
    have hg : (decide (j ≥ sh)) = true := by simp [hs]
    rw [hg, Bool.true_and]
    have hd : decide (j - sh < w) = decide (sh ≤ j ∧ j < sh + w) :=
      decide_eq_decide.mpr (by omega)
    rw [hd]
  · have hg : (decide (j ≥ sh)) = false := by simp [hs]
    have hr : decide (sh ≤ j ∧ j < sh + w) = false := by simp [hs]
    rw [hg, hr, Bool.false_and, Bool.and_false]

/-- Specialization of the extraction lemma to the two-bit PRV field. -/
theorem extract3_testBit (v sh j : Nat) :
    (((v >>> sh) &&& 3) <<< sh).testBit j =
      (v.testBit j && decide (sh ≤ j ∧ j < sh + 2)) := by
  have h : (3 : Nat) = 2 ^ 2 - 1 := rfl
  rw [h, extract_testBit]

/-- Specialization of the extraction lemma to a one-bit field. -/
theorem extract1_testBit (v sh j : Nat) :
    (((v >>> sh) &&& 1) <<< sh).testBit j = (v.testBit j && decide (j = sh)) := by
  have h : (1 : Nat) = 2 ^ 1 - 1 := rfl
  rw [h, extract_testBit]
  congr 1
  exact decide_eq_decide.mpr (by omega)

/-- Bits of a bool placed at shift `sh`. -/
theorem shifted_bool_testBit (b : Bool) (sh k : Nat) :
    ((b.toNat) <<< sh).testBit k = (decide (k = sh) && b) := by
  rw [Nat.testBit_shiftLeft, Nat.testBit_bool_to_nat, ← Bool.and_assoc,
    ge_and_decide_eq]

/-- Bits of `packed_iflags` applied to a PRV value and two bools. -/
theorem packed_iflags_testBit (pS iS hS PRVv : Nat) (Iv Hv : Bool) (k : Nat) :
    (packed_iflags pS iS hS PRVv Iv.toNat Hv.toNat).testBit k =
      ((decide (pS ≤ k) && PRVv.testBit (k - pS)) ||
        (decide (k = iS) && Iv) || (decide (k = hS) && Hv)) := by
  unfold packed_iflags
  rw [Nat.testBit_or, Nat.testBit_or, Nat.testBit_shiftLeft,
    shifted_bool_testBit, shifted_bool_testBit]

/-- C10: writing `v` to `iflags` and reading it back yields `v` restricted
to the defined fields (the two PRV bits, the I bit and the H bit at their
shifts) with all other bits cleared; and `write_iflags (read_iflags())` is
the identity on the iflags state, for any assignment of distinct,
non-overlapping field shifts (the concrete shift values live in
riscv-constants.h, outside this fragment). -/
theorem C10_iflags_roundtrip (pS iS hS v : Nat) (f : Iflags) (hv : v < 2 ^ 64)
    (h1 : hS ≠ iS) (h2 : hS ≠ pS) (h3 : hS ≠ pS + 1)
    (h4 : iS ≠ pS) (h5 : iS ≠ pS + 1) (hPRV : f.PRV < 4) :
    read_iflags pS iS hS (write_iflags pS iS hS v) =
      v &&& ((3 <<< pS) ||| (1 <<< iS) ||| (1 <<< hS)) ∧
    write_iflags pS iS hS (read_iflags pS iS hS f) = f := by
  obtain ⟨PRVv, Iv, Hv⟩ := f
  have hPRV' : PRVv < 4 := hPRV
  have prvHigh : ∀ k, 2 ≤ k → PRVv.testBit k = false := by
    intro k hk
    refine Nat.testBit_lt_two_pow (lt_of_lt_of_le hPRV' ?_)
    calc (4 : Nat) = 2 ^ 2 := rfl
    _ ≤ 2 ^ k := Nat.pow_le_pow_right (by omega) hk
  constructor
  · unfold read_iflags write_iflags packed_iflags
    simp only [toNat_and_one_beq]
    apply Nat.eq_of_testBit_eq
    intro j
    rw [Nat.testBit_or, Nat.testBit_or, extract3_testBit, extract1_testBit,
      extract1_testBit, Nat.testBit_and, Nat.testBit_or, Nat.testBit_or,
      Nat.testBit_shiftLeft, Nat.testBit_shiftLeft, Nat.testBit_shiftLeft,
      testBit_three, testBit_one_nat, testBit_one_nat,
      ge_and_decide_lt pS 2 j, ge_and_decide_eq iS j, ge_and_decide_eq hS j]
    cases v.testBit j <;> simp
  · unfold write_iflags read_iflags
    have keyH : (packed_iflags pS iS hS PRVv Iv.toNat Hv.toNat).testBit hS = Hv := by
      rw [packed_iflags_testBit,
        show (decide (pS ≤ hS) && PRVv.testBit (hS - pS)) = false from ?_,
        show (decide (hS = iS) && Iv) = false from by simp [h1],
        show (decide (hS = hS) && Hv) = Hv from by simp]
      · rfl
      · by_cases hp : pS ≤ hS
        · rw [prvHigh (hS - pS) (by omega), Bool.and_false]
        · simp [hp]
    have keyI : (packed_iflags pS iS hS PRVv Iv.toNat Hv.toNat).testBit iS = Iv := by
      rw [packed_iflags_testBit,
        show (decide (pS ≤ iS) && PRVv.testBit (iS - pS)) = false from ?_,
        show (decide (iS = iS) && Iv) = Iv from by simp,
        show (decide (iS = hS) && Hv) = false from by simp [Ne.symm h1]]
      · rw [Bool.false_or, Bool.or_false]
      · by_cases hp : pS ≤ iS
        · rw [prvHigh (iS - pS) (by omega), Bool.and_false]
        · simp [hp]
    have bit_of : ∀ (x sh : Nat), (x >>> sh) &&& 1 = (x.testBit sh).toNat := by
      intro x sh
      rw [Nat.and_one_is_mod, Nat.shiftRight_eq_div_pow, ← Nat.toNat_testBit]
    simp only [Iflags.mk.injEq]
    refine ⟨?_, ?_, ?_⟩
    · have h3' : (3 : Nat) = 2 ^ 2 - 1 := rfl
      rw [h3', Nat.and_pow_two_sub_one_eq_mod]
      apply Nat.eq_of_testBit_eq
      intro k
      rw [Nat.testBit_mod_two_pow, Nat.testBit_shiftRight, packed_iflags_testBit,
        show (decide (pS ≤ pS + k) && PRVv.testBit (pS + k - pS)) =
          PRVv.testBit k from by simp]
      by_cases hk : k < 2
      · rw [show decide (pS + k = iS) = false from by
            simp only [decide_eq_false_iff_not]; omega, Bool.false_and,
          show decide (pS + k = hS) = false from by
            simp only [decide_eq_false_iff_not]; omega, Bool.false_and]
        simp [hk]
      · rw [show PRVv.testBit k = false from prvHigh k (by omega)]
        simp [hk]
    · rw [bit_of, keyI]
      cases Iv <;> rfl
    · rw [bit_of, keyH]
      cases Hv <;> rfl

/-- C10 witness: with the shifts `PRV = 2`, `I = 1`, `H = 0`, writing
`v = 0xff` reads back as `v` masked to the low four bits, and pack/unpack
is the identity on the concrete iflags `(PRV = 3, I = true, H = false)`. -/
theorem C10_iflags_roundtrip_witness :
    (read_iflags 2 1 0 (write_iflags 2 1 0 0xff) =
      0xff &&& ((3 <<< 2) ||| (1 <<< 1) ||| (1 <<< 0)) ∧
    write_iflags 2 1 0 (read_iflags 2 1 0 ⟨3, true, false⟩) =
      (⟨3, true, false⟩ : Iflags)) :=
  C10_iflags_roundtrip 2 1 0 0xff ⟨3, true, false⟩ (by decide) (by decide)
    (by decide) (by decide) (by decide) (by decide) (by decide)

end Cartesi
